import Mathlib

/-!
Verification of the test-data-generator application (`src/app.py`): the epic
configuration normalizer, the generation orchestrator, the result aggregator
and the logic-module registry, shallowly embedded as executable Lean
definitions.  Python dictionaries become insertion-ordered association lists,
Streamlit widget values become explicit input records, and the single-session
Streamlit state becomes an explicit state record with step functions.
-/

/-- Python-style values stored in the nested configuration dictionaries that
the app builds (`epic_counts` and friends). -/
inductive PyVal where
  | int (n : Nat)
  | str (s : String)
  | bool (b : Bool)
  | range (lo hi : Nat)
  | list (xs : List Nat)
  | dict (entries : List (String × PyVal))

/-- A Python dict with string keys, as an insertion-ordered association list. -/
abbrev Dict := List (String × PyVal)

/-- Python dict lookup: `d.get(k)` (`some` iff `k in d`). -/
def dictGet {α : Type} (d : List (String × α)) (k : String) : Option α :=
  match d with
  | [] => none
  | (k2, v) :: rest => if k2 = k then some v else dictGet rest k

/-- Python dict assignment `d[k] = v`: replace the value in place when the key
is present, append a new entry otherwise (insertion order preserved). -/
def dictSet {α : Type} (d : List (String × α)) (k : String) (v : α) :
    List (String × α) :=
  match d with
  | [] => [(k, v)]
  | (k2, v2) :: rest => if k2 = k then (k, v) :: rest else (k2, v2) :: dictSet rest k v

/-! ## Widget inputs

The normalizer in `app.py` is written inline in the Streamlit canvas: every
configuration value is read from a widget.  We model the widget values that one
epic's rows can carry as explicit records; the normalizer then consumes them
exactly as the canvas code does (sliders seed their defaults from the per-epic
range tables, but the normalizer only ever sees the widget's current value). -/

/-- One row of the PPT configuration table (lines 246-278 of `app.py`):
the Enable checkbox, the min/max slider value and the Pos / Neg inputs. -/
structure PptInput where
  enabled : Bool
  range : Nat × Nat
  pos : Nat
  neg : Nat

/-- The SumAssuredValidation tier widgets (lines 329-353): the two Enable
checkboxes, the tier min/max inputs and the per-tier Pos / Neg inputs. -/
structure SumAssuredInput where
  sp : Bool
  min_sp : Nat
  max_sp : Nat
  pos_sp : Nat
  neg_sp : Nat
  oth : Bool
  min_oth : Nat
  pos_oth : Nat
  neg_oth : Nat

/-- All widget values belonging to one epic's configuration row. -/
structure EpicInput where
  is_selected : Bool
  ppt : String → PptInput
  pos_count : Nat
  neg_count : Nat
  freq_cb : String → Bool
  sa : SumAssuredInput

/-- The `count_mode` radio button (lines 149-154): "Apply Same Count to All
Epics" (`uniform`) vs "Set Individual Counts for Each Epic" (`perEpic`). -/
inductive CountMode where
  | uniform
  | perEpic
deriving DecidableEq

/-- The two sidebar number inputs shown in uniform mode (lines 158-162). -/
structure SidebarInput where
  pos_global : Nat
  neg_global : Nat

/-- Lines 156-162: `num_positive_global, num_negative_global = 5, 5`, then
overwritten from the sidebar inputs only when the mode is
"Apply Same Count to All Epics". -/
def globalCounts (mode : CountMode) (sb : SidebarInput) : Nat × Nat :=
  match mode with
  | .uniform => (sb.pos_global, sb.neg_global)
  | .perEpic => (5, 5)

/-! ## Epic configuration normalizer -/

/-- The six fixed premium-payment-term variants (line 194 of `app.py`). -/
def ppt_names : List String :=
  ["Single Pay", "Limited Pay (5 pay)", "Limited Pay (10 pay)",
   "Limited Pay (15 pay)", "Limited Pay (Pay till age 60)", "Regular Pay"]

/-- The four dicts built by the PER_EPIC PPT table loop. -/
structure PptDicts where
  ppt_age_ranges : List (String × (Nat × Nat))
  ppt_pos_counts : List (String × Nat)
  ppt_neg_counts : List (String × Nat)
  ppt_enabled : List (String × Bool)

/-- One iteration of the PER_EPIC PPT loop (lines 246-278): an enabled variant
contributes its range and counts to all four dicts, a disabled one only
records `ppt_enabled[ppt] = False`. -/
def pptStepPerEpic (inp : EpicInput) (acc : PptDicts) (ppt : String) : PptDicts :=
  let w := inp.ppt ppt
  if w.enabled then
    { ppt_age_ranges := dictSet acc.ppt_age_ranges ppt w.range
      ppt_pos_counts := dictSet acc.ppt_pos_counts ppt w.pos
      ppt_neg_counts := dictSet acc.ppt_neg_counts ppt w.neg
      ppt_enabled := dictSet acc.ppt_enabled ppt true }
  else
    { acc with ppt_enabled := dictSet acc.ppt_enabled ppt false }

/-- The PER_EPIC PPT loop over the six variants. -/
def buildPptPerEpic (inp : EpicInput) : PptDicts :=
  ppt_names.foldl (pptStepPerEpic inp) ⟨[], [], [], []⟩

/-- The two dicts built by the UNIFORM PPT loop (lines 396-421). -/
structure PptDictsU where
  ppt_age_ranges : List (String × (Nat × Nat))
  ppt_enabled : List (String × Bool)

/-- One iteration of the UNIFORM PPT loop (lines 396-421). -/
def pptStepUniform (inp : EpicInput) (acc : PptDictsU) (ppt : String) : PptDictsU :=
  let w := inp.ppt ppt
  if w.enabled then
    { ppt_age_ranges := dictSet acc.ppt_age_ranges ppt w.range
      ppt_enabled := dictSet acc.ppt_enabled ppt true }
  else
    { acc with ppt_enabled := dictSet acc.ppt_enabled ppt false }

/-- The UNIFORM PPT loop over the six variants. -/
def buildPptUniform (inp : EpicInput) : PptDictsU :=
  ppt_names.foldl (pptStepUniform inp) ⟨[], []⟩

/-- `any(ppt_enabled.values())`. -/
def anyEnabled (e : List (String × Bool)) : Bool := e.any (fun kv => kv.2)

/-- The five payment-frequency checkbox labels, in widget order (line 298). -/
def frequency_options : List String :=
  ["Annual", "Half-Yearly", "Quarterly", "Monthly", "Single Pay"]

/-- The fixed ordinal table (line 299):
`{"Annual": 1, "Half-Yearly": 2, "Quarterly": 3, "Monthly": 4, "Single Pay": 5}`. -/
def frequency_map : String → Nat
  | "Annual" => 1
  | "Half-Yearly" => 2
  | "Quarterly" => 3
  | "Monthly" => 4
  | "Single Pay" => 5
  | _ => 0

/-- Lines 300-307: iterate `frequency_options` in its fixed order, keep the
checked names, then translate through `frequency_map`. -/
def mappedFrequencies (sel : String → Bool) : List Nat :=
  (frequency_options.filter (fun f => sel f)).map frequency_map

/-- Convert a ranges dict into the stored `PyVal` dict. -/
def rangesVal (r : List (String × (Nat × Nat))) : PyVal :=
  .dict (r.map (fun kv => (kv.1, .range kv.2.1 kv.2.2)))

/-- Convert a counts dict into the stored `PyVal` dict. -/
def natsVal (p : List (String × Nat)) : PyVal :=
  .dict (p.map (fun kv => (kv.1, .int kv.2)))

/-- Convert an enabled-flags dict into the stored `PyVal` dict. -/
def boolsVal (e : List (String × Bool)) : PyVal :=
  .dict (e.map (fun kv => (kv.1, .bool kv.2)))

/-- The four keys handled by the PPT-ranged branch (lines 233 / 390). -/
def isPptEpic (key : String) : Bool :=
  key = "EntryAge" || key = "PremiumPayingTerm" || key = "PolicyTerm" ||
    key = "MaturityAge"

/-- The two epic-key lists and two epic-config dicts accumulated by the canvas
(lines 166-170): base `selected_epics` / `epic_counts` and their rider
counterparts. -/
structure CanvasState where
  selected_epics : List String
  epic_counts : Dict
  selected_epics_rider : List String
  epic_counts_rider : Dict

/-- Lines 166-170: all four containers start empty each rerun. -/
def emptyCanvas : CanvasState := ⟨[], [], [], []⟩

/-- `epic_counts[epic_key][tier] = payload` on a key whose value is known to be
a dict (the caller just ensured it with `epic_counts[epic_key] = {}`). -/
def setTier (d : Dict) (k tier : String) (v : PyVal) : Dict :=
  let inner := match dictGet d k with
    | some (.dict entries) => entries
    | _ => []
  dictSet d k (.dict (dictSet inner tier v))

/-- The SumAssuredValidation dict updates (lines 357-371 and 483-497): ensure
the epic key is present with `{}`, then add each enabled tier's payload.  Both
count modes store `num_positive_global` / `num_negative_global` in the tier
payloads. -/
def sumAssuredCounts (gpos gneg : Nat) (key : String) (inp : EpicInput) (d : Dict) :
    Dict :=
  let d1 := if (dictGet d key).isNone then dictSet d key (.dict []) else d
  let d2 := if inp.sa.sp then
      setTier d1 key "Single Pay" (.dict
        [("min_val", .int inp.sa.min_sp), ("max_val", .int inp.sa.max_sp),
         ("positive", .int gpos), ("negative", .int gneg)])
    else d1
  if inp.sa.oth then
    setTier d2 key "Others" (.dict
      [("min_val", .int inp.sa.min_oth), ("positive", .int gpos),
       ("negative", .int gneg)])
  else d2

/-- One iteration of the base-plan epic loop (lines 196-503): dispatch on the
count mode and the epic key, and extend `selected_epics` / `epic_counts` as the
source does. -/
def processBaseEpic (mode : CountMode) (gpos gneg : Nat) (key : String)
    (inp : EpicInput) (st : CanvasState) : CanvasState :=
  match mode with
  | .perEpic =>
    if isPptEpic key then
      if inp.is_selected && anyEnabled (buildPptPerEpic inp).ppt_enabled then
        { st with
          selected_epics := st.selected_epics ++ [key]
          epic_counts := dictSet st.epic_counts key (.dict
            [("ppt_age_ranges", rangesVal (buildPptPerEpic inp).ppt_age_ranges),
             ("ppt_pos_counts", natsVal (buildPptPerEpic inp).ppt_pos_counts),
             ("ppt_neg_counts", natsVal (buildPptPerEpic inp).ppt_neg_counts),
             ("ppt_enabled", boolsVal (buildPptPerEpic inp).ppt_enabled)]) }
      else st
    else if key = "PaymentFrequency" then
      if inp.is_selected then
        { st with
          selected_epics := st.selected_epics ++ [key]
          epic_counts := dictSet st.epic_counts key (.dict
            [("positive", .int inp.pos_count), ("negative", .int inp.neg_count),
             ("payment_frequency_options", .list (mappedFrequencies inp.freq_cb))]) }
      else st
    else if key = "SumAssuredValidation" then
      if inp.is_selected then
        { st with
          selected_epics := st.selected_epics ++ [key]
          epic_counts := sumAssuredCounts gpos gneg key inp st.epic_counts }
      else st
    else
      if inp.is_selected then
        { st with
          selected_epics := st.selected_epics ++ [key]
          epic_counts := dictSet st.epic_counts key (.dict
            [("positive", .int inp.pos_count), ("negative", .int inp.neg_count)]) }
      else st
  | .uniform =>
    if isPptEpic key then
      if inp.is_selected && anyEnabled (buildPptUniform inp).ppt_enabled then
        { st with
          selected_epics := st.selected_epics ++ [key]
          epic_counts := dictSet st.epic_counts key (.dict
            [("ppt_age_ranges", rangesVal (buildPptUniform inp).ppt_age_ranges),
             ("ppt_enabled", boolsVal (buildPptUniform inp).ppt_enabled),
             ("positive", .int gpos), ("negative", .int gneg)]) }
      else st
    else if key = "PaymentFrequency" then
      if inp.is_selected then
        { st with
          selected_epics := st.selected_epics ++ [key]
          epic_counts := dictSet st.epic_counts key (.dict
            [("positive", .int gpos), ("negative", .int gneg),
             ("payment_frequency_options", .list (mappedFrequencies inp.freq_cb))]) }
      else st
    else if key = "SumAssuredValidation" then
      if inp.is_selected then
        { st with
          selected_epics := st.selected_epics ++ [key]
          epic_counts := sumAssuredCounts gpos gneg key inp st.epic_counts }
      else st
    else
      if inp.is_selected then
        { st with
          selected_epics := st.selected_epics ++ [key]
          epic_counts := dictSet st.epic_counts key (.dict
            [("positive", .int gpos), ("negative", .int gneg)]) }
      else st

/-- One iteration of the rider epic loop (lines 520-823).  The PPT-ranged and
generic branches extend the rider containers, but the two rider
PaymentFrequency branches (632-638 and 766-772) append to the *base*
`selected_epics` and write into the *base* `epic_counts`, and the rider
SumAssuredValidation branches are commented out in the source, so that key
falls through to the generic branch. -/
def processRiderEpic (mode : CountMode) (gpos gneg : Nat) (key : String)
    (inp : EpicInput) (st : CanvasState) : CanvasState :=
  match mode with
  | .perEpic =>
    if isPptEpic key then
      if inp.is_selected && anyEnabled (buildPptPerEpic inp).ppt_enabled then
        { st with
          selected_epics_rider := st.selected_epics_rider ++ [key]
          epic_counts_rider := dictSet st.epic_counts_rider key (.dict
            [("ppt_age_ranges", rangesVal (buildPptPerEpic inp).ppt_age_ranges),
             ("ppt_pos_counts", natsVal (buildPptPerEpic inp).ppt_pos_counts),
             ("ppt_neg_counts", natsVal (buildPptPerEpic inp).ppt_neg_counts),
             ("ppt_enabled", boolsVal (buildPptPerEpic inp).ppt_enabled)]) }
      else st
    else if key = "PaymentFrequency" then
      if inp.is_selected then
        { st with
          selected_epics := st.selected_epics ++ [key]
          epic_counts := dictSet st.epic_counts key (.dict
            [("positive", .int inp.pos_count), ("negative", .int inp.neg_count),
             ("payment_frequency_options", .list (mappedFrequencies inp.freq_cb))]) }
      else st
    else
      if inp.is_selected then
        { st with
          selected_epics_rider := st.selected_epics_rider ++ [key]
          epic_counts_rider := dictSet st.epic_counts_rider key (.dict
            [("positive", .int inp.pos_count), ("negative", .int inp.neg_count)]) }
      else st
  | .uniform =>
    if isPptEpic key then
      if inp.is_selected && anyEnabled (buildPptUniform inp).ppt_enabled then
        { st with
          selected_epics_rider := st.selected_epics_rider ++ [key]
          epic_counts_rider := dictSet st.epic_counts_rider key (.dict
            [("ppt_age_ranges", rangesVal (buildPptUniform inp).ppt_age_ranges),
             ("ppt_enabled", boolsVal (buildPptUniform inp).ppt_enabled),
             ("positive", .int gpos), ("negative", .int gneg)]) }
      else st
    else if key = "PaymentFrequency" then
      if inp.is_selected then
        { st with
          selected_epics := st.selected_epics ++ [key]
          epic_counts := dictSet st.epic_counts key (.dict
            [("positive", .int gpos), ("negative", .int gneg),
             ("payment_frequency_options", .list (mappedFrequencies inp.freq_cb))]) }
      else st
    else
      if inp.is_selected then
        { st with
          selected_epics_rider := st.selected_epics_rider ++ [key]
          epic_counts_rider := dictSet st.epic_counts_rider key (.dict
            [("positive", .int gpos), ("negative", .int gneg)]) }
      else st

/-- The base-plan epic loop over `EPIC_MAP` (iteration order = map order). -/
def processBaseEpics (mode : CountMode) (gpos gneg : Nat) (bIn : String → EpicInput)
    (em : List (String × String)) (st : CanvasState) : CanvasState :=
  em.foldl (fun st kv => processBaseEpic mode gpos gneg kv.1 (bIn kv.1) st) st

/-- The rider epic loop over `EPIC_MAP_RIDER`. -/
def processRiderEpics (mode : CountMode) (gpos gneg : Nat) (rIn : String → EpicInput)
    (emr : List (String × String)) (st : CanvasState) : CanvasState :=
  emr.foldl (fun st kv => processRiderEpic mode gpos gneg kv.1 (rIn kv.1) st) st

/-- The whole configuration canvas: base tab then rider tab, both starting from
the empty containers of lines 166-170. -/
def processCanvas (mode : CountMode) (gpos gneg : Nat)
    (em emr : List (String × String)) (bIn rIn : String → EpicInput) :
    CanvasState :=
  processRiderEpics mode gpos gneg rIn emr
    (processBaseEpics mode gpos gneg bIn em emptyCanvas)

/-! ## Session state and the generation orchestrator -/

/-- The row collection a module's `generate_test_cases` returns (a pandas
DataFrame in the source): a column list plus one cell-reading function per
row.  The aggregator treats the row schema as opaque apart from the
conventionally named columns. -/
structure ResultSet where
  columns : List String
  rows : List (String → String)

/-- What the module's generation entry point does when invoked. -/
inductive GenOutcome where
  | raises
  | returns (df : ResultSet)

/-- A loaded logic module: `EPIC_MAP` / `EPIC_MAP_RIDER` attributes (each
possibly missing) and the `generate_test_cases` entry point (possibly
missing). -/
structure LogicModule where
  epic_map : Option (List (String × String))
  epic_map_rider : Option (List (String × String))
  has_generate : Bool
  gen : GenOutcome

/-- The Streamlit session state owned by one user session (lines 109-114). -/
structure SessionState where
  generated_df : Option ResultSet
  selected_module_name_py : Option String
  processing : Bool
  epic_counts_to_generate : Dict
  epic_counts_to_generate_rider : Dict

/-- The configuration canvas of lines 172-826: the epic rows are rendered (and
hence the four containers filled) only when a module is selected and
`generated_df is None`; each tab additionally requires the freshly loaded
module to expose its epic map. -/
def renderCanvas (s : SessionState) (mode : CountMode) (sb : SidebarInput)
    (bIn rIn : String → EpicInput) (loaded : Option LogicModule) : CanvasState :=
  if s.selected_module_name_py.isSome && s.generated_df.isNone then
    match loaded with
    | some m =>
      let st1 := match m.epic_map with
        | some em =>
          processBaseEpics mode (globalCounts mode sb).1 (globalCounts mode sb).2
            bIn em emptyCanvas
        | none => emptyCanvas
      match m.epic_map_rider with
      | some emr =>
        processRiderEpics mode (globalCounts mode sb).1 (globalCounts mode sb).2
          rIn emr st1
      | none => st1
    | none => emptyCanvas
  else emptyCanvas

/-- How one run of the orchestration is classified. -/
inductive Outcome where
  | idle
  | success (n : Nat)
  | generationFailure
  | contractViolation
  | loadFailure
deriving DecidableEq

/-- The "Generate Test Cases" button handler (lines 832-841): the button is
disabled while `processing` is set; clicking warns (and changes nothing) when
no product is selected or when no epic is selected in either family, and
otherwise stashes the two config dicts and raises the processing flag. -/
def clickGenerate (s : SessionState) (c : CanvasState) : SessionState :=
  if s.processing then s
  else if s.selected_module_name_py.isNone then s
  else if c.selected_epics.isEmpty && c.selected_epics_rider.isEmpty then s
  else
    { s with
      processing := true
      epic_counts_to_generate := c.epic_counts
      epic_counts_to_generate_rider := c.epic_counts_rider }

/-- The processing block (lines 850-875): reload the module, call
`generate_test_cases` once inside try/except, store the result (or `None` on
any failure path), and drop the processing flag at the end. -/
def runProcessing (s : SessionState) (loaded : Option LogicModule) :
    SessionState × Outcome :=
  if s.processing && s.selected_module_name_py.isSome then
    match loaded with
    | none => ({ s with generated_df := none, processing := false }, .loadFailure)
    | some m =>
      if m.has_generate then
        match m.gen with
        | .raises =>
          ({ s with generated_df := none, processing := false }, .generationFailure)
        | .returns df =>
          ({ s with generated_df := some df, processing := false },
           .success df.rows.length)
      else ({ s with generated_df := none, processing := false }, .contractViolation)
  else (s, .idle)

/-! ## Result aggregator -/

/-- The summary the aggregator derives from one `ResultSet`. -/
structure Summary where
  total : Nat
  positive : Nat
  negative : Nat
  distribution : List (String × Nat)
deriving DecidableEq

/-- `df[col].value_counts().get(v, 0)`: how many rows carry value `v` in
column `col`. -/
def countValue (rows : List (String → String)) (col v : String) : Nat :=
  (rows.filter (fun r => r col == v)).length

/-- `df[col].value_counts()` as a value → count list (first-occurrence order;
the chart only consumes the multiset of pairs). -/
def value_counts (rows : List (String → String)) (col : String) :
    List (String × Nat) :=
  let vals := rows.map (fun r => r col)
  vals.dedup.map (fun v => (v, (vals.filter (fun x => x == v)).length))

/-- `display_generation_summary` (lines 13-35): total row count; positive and
negative counts from the `Test_Type` column when present (zero otherwise,
never an error); the per-`Epic` distribution when that column is present. -/
def display_generation_summary (df : ResultSet) : Summary :=
  { total := df.rows.length
    positive :=
      if "Test_Type" ∈ df.columns then countValue df.rows "Test_Type" "Positive"
      else 0
    negative :=
      if "Test_Type" ∈ df.columns then countValue df.rows "Test_Type" "Negative"
      else 0
    distribution :=
      if "Epic" ∈ df.columns then value_counts df.rows "Epic" else [] }

/-- The three styles `get_style` can hand back (lines 38-43): the FAIL
background, the PASS background, or the empty string. -/
inductive OutcomeStyle where
  | failStyle
  | passStyle
  | neutral
deriving DecidableEq

/-- Python's substring test `needle in hay` on character lists. -/
def containsSub (needle : List Char) : List Char → Bool
  | [] => needle.isEmpty
  | c :: t => needle.isPrefixOf (c :: t) || containsSub needle t

/-- `get_style` inside `highlight_rule_outcomes` (lines 38-43): substring
`'Fail'` wins, then exact `'Pass'`, else no styling. -/
def get_style (v : String) : OutcomeStyle :=
  if containsSub "Fail".data v.data then .failStyle
  else if v = "Pass" then .passStyle
  else .neutral

/-- `highlight_rule_outcomes` (lines 37-44): style every value of the column. -/
def highlight_rule_outcomes (s : List String) : List OutcomeStyle :=
  s.map get_style

/-- Line 889: `df_to_display.sample(min(10, len(df_to_display)))`.  A pandas
sample of size `k` keeps `k` rows of some random reordering of the rows; the
randomness is modelled by the `shuffled` argument, a permutation of the rows,
and the caller passes `k = min n |rows|` (the source fixes `n = 10`). -/
def sample_df {α : Type} (shuffled : List α) (k : Nat) : List α :=
  shuffled.take k

/-! ## Module registry -/

/-- What happens when the registry executes one module file during listing:
the module runs and may or may not define `MODULE_NAME`, or it raises. -/
inductive IntrospectResult where
  | ok (module_name : Option String)
  | raises

/-- Python `str.title()` on ASCII text: the first letter of every run of
letters is uppercased, the following letters are lowercased, everything else
is kept; the Bool argument records whether the previous character was a
letter. -/
def titleChars : List Char → Bool → List Char
  | [], _ => []
  | c :: rest, prevAlpha =>
    (if c.isAlpha then (if prevAlpha then c.toLower else c.toUpper) else c) ::
      titleChars rest c.isAlpha

/-- `module_name_py_file.replace("_", " ").title()` (lines 58/61): the
fallback display name derived from the file stem. -/
def derived_display_name (stem : String) : String :=
  ⟨titleChars (stem.data.map (fun c => if c = '_' then ' ' else c)) false⟩

/-- Python `s.endswith(suffix)`, evaluated on the character sequences. -/
def strEndsWith (s suffix : String) : Bool :=
  suffix.data.isSuffixOf s.data

/-- Python `s.startswith(pre)`, evaluated on the character sequences. -/
def strStartsWith (s pre : String) : Bool :=
  pre.data.isPrefixOf s.data

/-- Python `s[:-n]`: everything but the last `n` characters. -/
def strDropRight (s : String) (n : Nat) : String :=
  ⟨s.data.take (s.data.length - n)⟩

/-- Whether a directory entry is processed by the registry loop (line 52):
`filename.endswith(".py") and not filename.startswith("__")`. -/
def eligibleModuleFile (fn : String) : Bool :=
  strEndsWith fn ".py" && !strStartsWith fn "__"

/-- The body of the registry loop (lines 52-61): skip ineligible entries;
execute the file; on success record it under `MODULE_NAME` when defined, else
under the derived name; when it raises, still record it under the derived
name.  Either way the value is the module id (the file stem). -/
def galStep (modules : List (String × String)) (fr : String × IntrospectResult) :
    List (String × String) :=
  if eligibleModuleFile fr.1 then
    let module_name_py_file := strDropRight fr.1 3
    match fr.2 with
    | .ok mn =>
      dictSet modules (mn.getD (derived_display_name module_name_py_file))
        module_name_py_file
    | .raises =>
      dictSet modules (derived_display_name module_name_py_file)
        module_name_py_file
  else modules

/-- `get_available_logic_modules` (lines 46-64): fold the registry loop over
the directory listing, starting from the empty dict. -/
def get_available_logic_modules (files : List (String × IntrospectResult)) :
    List (String × String) :=
  files.foldl galStep []

/-- The display name under which one directory entry ends up in the listing. -/
def displayKey (fn : String) (res : IntrospectResult) : String :=
  match res with
  | .ok mn => mn.getD (derived_display_name (strDropRight fn 3))
  | .raises => derived_display_name (strDropRight fn 3)

/-! ## Concrete scenario data used by the counterexamples and witnesses -/

/-- A top-level-selected epic input with every PPT variant disabled, no
frequency checked and both sum-assured tiers disabled. -/
def plainInput : EpicInput :=
  { is_selected := true
    ppt := fun _ => ⟨false, (0, 0), 5, 5⟩
    pos_count := 5
    neg_count := 5
    freq_cb := fun _ => false
    sa := ⟨false, 0, 0, 0, 0, false, 0, 0, 0⟩ }

/-- PER_EPIC SumAssuredValidation scenario: the Single Pay tier is enabled and
its Pos / Neg widgets carry 7 and 3, values distinct from the global default
pair (5, 5). -/
def c2Input : EpicInput :=
  { plainInput with
    sa := ⟨true, 2500000, 5000000, 7, 3, false, 5000000, 0, 0⟩ }

/-- Base PaymentFrequency scenario: selected, counts 5/5, only Annual checked. -/
def c1BaseInput : EpicInput :=
  { plainInput with freq_cb := fun f => f == "Annual" }

/-- Rider PaymentFrequency scenario: selected, counts 9/1, only Monthly
checked — all distinct from the base values so the leak is visible. -/
def c1RiderInput : EpicInput :=
  { plainInput with
    pos_count := 9
    neg_count := 1
    freq_cb := fun f => f == "Monthly" }

/-- The canvas produced when both `EPIC_MAP` and `EPIC_MAP_RIDER` contain
`PaymentFrequency` and both rows are selected, in PER_EPIC mode. -/
def c1Canvas : CanvasState :=
  processCanvas .perEpic 5 5
    [("PaymentFrequency", "Payment Frequency")]
    [("PaymentFrequency", "Payment Frequency")]
    (fun _ => c1BaseInput) (fun _ => c1RiderInput)

/-- A module whose generation entry point raises. -/
def w3Module : LogicModule :=
  { epic_map := some [("DeathBenefit", "Death Benefit")]
    epic_map_rider := none
    has_generate := true
    gen := .raises }

/-- A fresh session with a product selected and no stored results. -/
def w3State : SessionState :=
  { generated_df := none
    selected_module_name_py := some "term_plan"
    processing := false
    epic_counts_to_generate := []
    epic_counts_to_generate_rider := [] }

/-- `k` occurs in none of the four canvas containers. -/
def Untouched (k : String) (st : CanvasState) : Prop :=
  k ∉ st.selected_epics ∧ dictGet st.epic_counts k = none ∧
    k ∉ st.selected_epics_rider ∧ dictGet st.epic_counts_rider k = none

/-- A one-row result set without a `Test_Type` column. -/
def c6NoTypeDf : ResultSet :=
  { columns := ["Remark"], rows := [fun _ => "x"] }

/-- An empty result set that does carry the conventional columns. -/
def c6EmptyDf : ResultSet :=
  { columns := ["Test_Type", "Epic"], rows := [] }

/-- Directory listing whose raising module collides with a healthy module's
declared `MODULE_NAME`: `foo_bar.py` raises and derives the title "Foo Bar",
and the later `max_shield.py` declares `MODULE_NAME = "Foo Bar"`. -/
def c9Files : List (String × IntrospectResult) :=
  [("foo_bar.py", .raises), ("max_shield.py", .ok (some "Foo Bar"))]

/-- Directory listing with pairwise-distinct display names: a raising module,
a module without `MODULE_NAME`, a module with one, and two skipped entries. -/
def c9OkFiles : List (String × IntrospectResult) :=
  [("__init__.py", .ok none), ("foo_bar.py", .raises), ("baz.py", .ok none),
   ("qux.py", .ok (some "Nice")), ("readme.txt", .ok none)]

/-! ## Dictionary lemmas -/

theorem dictGet_nil {α : Type} (k : String) :
    dictGet ([] : List (String × α)) k = none := rfl

@[simp] theorem dictGet_dictSet_self {α : Type} (d : List (String × α)) (k : String)
    (v : α) : dictGet (dictSet d k v) k = some v := by
  induction d with
  | nil => simp [dictSet, dictGet]
  | cons hd tl ih =>
    by_cases h : hd.1 = k
    · simp [dictSet, dictGet, h]
    · simp [dictSet, dictGet, h, ih]

theorem dictGet_dictSet_ne {α : Type} (d : List (String × α)) {k k' : String} (v : α)
    (h : k' ≠ k) : dictGet (dictSet d k' v) k = dictGet d k := by
  induction d with
  | nil => simp [dictSet, dictGet, h]
  | cons hd tl ih =>
    by_cases h2 : hd.1 = k'
    · simp [dictSet, dictGet, h2, h]
    · simp [dictSet, dictGet, h2, ih]

theorem mem_dictSet_self {α : Type} (d : List (String × α)) (k : String) (v : α) :
    (k, v) ∈ dictSet d k v := by
  induction d with
  | nil => simp [dictSet]
  | cons hd tl ih =>
    by_cases h : hd.1 = k
    · simp [dictSet, h]
    · simp only [dictSet, h, if_false]
      exact List.mem_cons_of_mem _ ih

theorem mem_dictSet_of_ne {α : Type} {d : List (String × α)} {k : String} {v : α}
    (hmem : (k, v) ∈ d) {k' : String} (v' : α) (h : k ≠ k') :
    (k, v) ∈ dictSet d k' v' := by
  induction d with
  | nil => simp at hmem
  | cons hd tl ih =>
    rcases List.mem_cons.1 hmem with h3 | h3
    · subst h3
      simp [dictSet, h]
    · by_cases h2 : hd.1 = k'
      · simp only [dictSet, h2, if_pos rfl]
        exact List.mem_cons_of_mem _ h3
      · simp only [dictSet, h2, if_false]
        exact List.mem_cons_of_mem _ (ih h3)

theorem mem_dictSet_elim {α : Type} {d : List (String × α)} {k : String} {v : α}
    {kv : String × α} (h : kv ∈ dictSet d k v) : kv ∈ d ∨ kv = (k, v) := by
  induction d with
  | nil =>
    simp [dictSet] at h
    simp [h]
  | cons hd tl ih =>
    by_cases h2 : hd.1 = k
    · simp only [dictSet, h2, if_pos rfl] at h
      rcases List.mem_cons.1 h with h3 | h3
      · exact Or.inr h3
      · exact Or.inl (List.mem_cons_of_mem _ h3)
    · simp only [dictSet, h2, if_false] at h
      rcases List.mem_cons.1 h with h3 | h3
      · exact Or.inl (h3 ▸ List.mem_cons_self hd tl)
      · rcases ih h3 with h4 | h4
        · exact Or.inl (List.mem_cons_of_mem _ h4)
        · exact Or.inr h4

/-! ## Claim C1: rider PaymentFrequency leaks into the base containers -/

/-- C1: the claim says normalizing an epic of the rider family writes only
into the rider GenerationSpec and rider key list.  The rider PaymentFrequency
branches instead append to the base `selected_epics` and write into the base
`epic_counts`: with PaymentFrequency present and selected in both families
(PER_EPIC mode, base counts 5/5 with Annual, rider counts 9/1 with Monthly),
the rider containers stay empty, the base key list holds the key twice, and
the base payload is the rider's 9/1/[Monthly] — overwriting the base entry. -/
theorem c1_rider_payment_frequency_writes_into_base :
    c1Canvas.selected_epics_rider = [] ∧
    dictGet c1Canvas.epic_counts_rider "PaymentFrequency" = none ∧
    c1Canvas.selected_epics = ["PaymentFrequency", "PaymentFrequency"] ∧
    dictGet c1Canvas.epic_counts "PaymentFrequency" =
      some (.dict [("positive", .int 9), ("negative", .int 1),
        ("payment_frequency_options", .list [4])]) :=
  ⟨rfl, rfl, rfl, rfl⟩

/-! ## Claim C2: PER_EPIC SumAssuredValidation ignores the per-tier counts -/

/-- C2: the claim says each enabled tier carries its own entered counts in
PER_EPIC mode.  The code stores `num_positive_global` / `num_negative_global`
instead, which in PER_EPIC mode are the untouched defaults (5, 5): with the
Single Pay tier's widgets carrying 7 and 3, the stored payload still says
positive 5 / negative 5. -/
theorem c2_sum_assured_per_epic_uses_global_defaults :
    (∀ sb : SidebarInput, globalCounts .perEpic sb = (5, 5)) ∧
    c2Input.sa.pos_sp = 7 ∧ c2Input.sa.neg_sp = 3 ∧
    (processBaseEpic .perEpic 5 5 "SumAssuredValidation" c2Input
        emptyCanvas).epic_counts =
      [("SumAssuredValidation", .dict
        [("Single Pay", .dict
          [("min_val", .int 2500000), ("max_val", .int 5000000),
           ("positive", .int 5), ("negative", .int 5)])])] :=
  ⟨fun _ => rfl, rfl, rfl, rfl⟩

/-! ## Claim C10: SumAssuredValidation with no enabled tier keeps its key -/

/-- C10: with SumAssuredValidation top-level-selected but both tiers disabled,
in either count mode the epic key is still appended to `selected_epics` and
still present in `epic_counts` with an empty payload — unlike the PPT-ranged
epics, which are dropped without an enabled variant. -/
theorem c10_sum_assured_no_tier_still_selected (mode : CountMode) (gpos gneg : Nat)
    (inp : EpicInput) (st : CanvasState)
    (hsel : inp.is_selected = true) (hsp : inp.sa.sp = false)
    (hoth : inp.sa.oth = false)
    (habs : dictGet st.epic_counts "SumAssuredValidation" = none) :
    (processBaseEpic mode gpos gneg "SumAssuredValidation" inp st).selected_epics =
      st.selected_epics ++ ["SumAssuredValidation"] ∧
    dictGet (processBaseEpic mode gpos gneg "SumAssuredValidation" inp
        st).epic_counts "SumAssuredValidation" = some (.dict []) := by
  have hppt : isPptEpic "SumAssuredValidation" = false := rfl
  have hpf : "SumAssuredValidation" ≠ "PaymentFrequency" := by decide
  cases mode <;>
    simp [processBaseEpic, hppt, hpf, hsel, sumAssuredCounts, hsp, hoth, habs]

/-- Closed instance of C10: both tiers of `plainInput` are disabled, yet the
key lands in the key list and in the spec with the empty payload. -/
theorem c10_sum_assured_no_tier_still_selected_witness :
    (processBaseEpic .uniform 4 6 "SumAssuredValidation" plainInput
        emptyCanvas).selected_epics = [] ++ ["SumAssuredValidation"] ∧
    dictGet (processBaseEpic .uniform 4 6 "SumAssuredValidation" plainInput
        emptyCanvas).epic_counts "SumAssuredValidation" = some (.dict []) :=
  c10_sum_assured_no_tier_still_selected .uniform 4 6 plainInput emptyCanvas
    rfl rfl rfl rfl

/-! ## Claim C6: the summary never fails and defaults to zero -/

/-- C6: `display_generation_summary` is a total function of the result set;
when the `Test_Type` column is absent the positive and negative counts are 0
rather than an error, and a 0-row result set summarizes to
total 0 / positive 0 / negative 0 with an empty distribution. -/
theorem c6_summary_defaults (df : ResultSet) :
    ("Test_Type" ∉ df.columns →
      (display_generation_summary df).positive = 0 ∧
      (display_generation_summary df).negative = 0) ∧
    (df.rows = [] →
      display_generation_summary df =
        { total := 0, positive := 0, negative := 0, distribution := [] }) := by
  constructor
  · intro h
    simp [display_generation_summary, h]
  · intro h
    simp [display_generation_summary, h, countValue, value_counts]

/-- Closed instance of C6 at a one-row set without `Test_Type` and at an empty
set carrying the conventional columns. -/
theorem c6_summary_defaults_witness :
    ((display_generation_summary c6NoTypeDf).positive = 0 ∧
      (display_generation_summary c6NoTypeDf).negative = 0) ∧
    display_generation_summary c6EmptyDf =
      { total := 0, positive := 0, negative := 0, distribution := [] } :=
  ⟨(c6_summary_defaults c6NoTypeDf).1 (by decide),
   (c6_summary_defaults c6EmptyDf).2 rfl⟩

/-! ## Claim C7: rule-outcome styling -/

/-- C7: `get_style` classifies every textual value into exactly one of three
styles: the fail style iff the text contains the substring "Fail", otherwise
the pass style iff the text is exactly "Pass", otherwise neutral. -/
theorem c7_rule_outcome_classification (v : String) :
    (get_style v = .failStyle ↔ containsSub "Fail".data v.data = true) ∧
    (get_style v = .passStyle ↔
      containsSub "Fail".data v.data = false ∧ v = "Pass") ∧
    (get_style v = .neutral ↔
      containsSub "Fail".data v.data = false ∧ v ≠ "Pass") := by
  by_cases h2 : v = "Pass"
  · subst h2
    decide
  · cases hb : containsSub "Fail".data v.data
    · simp [get_style, hb, h2]
    · simp [get_style, hb]

/-! ## Claim C8: sampling size -/

/-- C8: sampling keeps exactly `min n |rows|` rows, drawn without replacement
from the result set (the kept rows are a sub-permutation of the original
rows); `shuffled` is the random reordering the sampler works through. -/
theorem c8_sample_size_min {α : Type} (rows shuffled : List α) (n : Nat)
    (hperm : shuffled.Perm rows) :
    (sample_df shuffled (min n rows.length)).length = min n rows.length ∧
    (sample_df shuffled (min n rows.length)).Subperm rows := by
  constructor
  · simp [sample_df, List.length_take, hperm.length_eq]
  · exact ((List.take_sublist _ _).subperm).trans hperm.subperm

/-- Closed instance of C8 with the source's `n = 10`: a 3-row set yields
exactly 3 rows, a 1000-row set exactly 10. -/
theorem c8_sample_size_min_witness :
    (sample_df (List.range 3) (min 10 (List.range 3).length)).length =
      min 10 (List.range 3).length ∧
    (sample_df (List.range 3) (min 10 (List.range 3).length)).Subperm
      (List.range 3) ∧
    min 10 (List.range 3).length = 3 ∧
    (sample_df (List.range 1000) (min 10 (List.range 1000).length)).length =
      min 10 (List.range 1000).length ∧
    min 10 (List.range 1000).length = 10 :=
  ⟨(c8_sample_size_min (List.range 3) (List.range 3) 10 (List.Perm.refl _)).1,
   (c8_sample_size_min (List.range 3) (List.range 3) 10 (List.Perm.refl _)).2,
   rfl,
   (c8_sample_size_min (List.range 1000) (List.range 1000) 10 (List.Perm.refl _)).1,
   by rw [List.length_range]; decide⟩

/-! ## Claim C5: frequency codes follow the fixed table order -/

/-- The frequency codes are strictly increasing along
`mappedFrequencies`, whatever subset of checkboxes is ticked: the list is
produced by filtering the fixed option list, never by selection order. -/
theorem mappedFrequencies_chain (sel : String → Bool) :
    List.Chain' (· < ·) (mappedFrequencies sel) := by
  cases h1 : sel "Annual" <;> cases h2 : sel "Half-Yearly" <;>
    cases h3 : sel "Quarterly" <;> cases h4 : sel "Monthly" <;>
    cases h5 : sel "Single Pay" <;>
    simp [mappedFrequencies, frequency_options, frequency_map, List.filter,
      h1, h2, h3, h4, h5]

/-- Membership in `mappedFrequencies` is exactly "some selected option maps to
this code". -/
theorem mappedFrequencies_mem (sel : String → Bool) (c : Nat) :
    c ∈ mappedFrequencies sel ↔
      ∃ f, f ∈ frequency_options ∧ sel f = true ∧ frequency_map f = c := by
  simp only [mappedFrequencies, List.mem_map, List.mem_filter]
  constructor
  · rintro ⟨f, ⟨hf1, hf2⟩, hf3⟩
    exact ⟨f, hf1, hf2, hf3⟩
  · rintro ⟨f, hf1, hf2, hf3⟩
    exact ⟨f, ⟨hf1, hf2⟩, hf3⟩

/-- C5: for any subset of checked frequency names, the stored
`payment_frequency_options` list is `mappedFrequencies` of the checkboxes —
exactly the ordinal codes of the selected names, in strictly increasing
(fixed-table) order, never selection order; in particular checking only
Monthly and Annual yields `[1, 4]`. -/
theorem c5_payment_frequency_fixed_order (mode : CountMode) (gpos gneg : Nat)
    (inp : EpicInput) (st : CanvasState) (hsel : inp.is_selected = true) :
    (∃ p n, dictGet (processBaseEpic mode gpos gneg "PaymentFrequency" inp
        st).epic_counts "PaymentFrequency" =
      some (.dict [("positive", .int p), ("negative", .int n),
        ("payment_frequency_options", .list (mappedFrequencies inp.freq_cb))])) ∧
    List.Chain' (· < ·) (mappedFrequencies inp.freq_cb) ∧
    (∀ c : Nat, c ∈ mappedFrequencies inp.freq_cb ↔
      ∃ f, f ∈ frequency_options ∧ inp.freq_cb f = true ∧ frequency_map f = c) ∧
    mappedFrequencies (fun f => f == "Monthly" || f == "Annual") = [1, 4] := by
  refine ⟨?_, mappedFrequencies_chain inp.freq_cb,
    mappedFrequencies_mem inp.freq_cb, by decide⟩
  have hppt : isPptEpic "PaymentFrequency" = false := rfl
  cases mode
  · exact ⟨gpos, gneg, by simp [processBaseEpic, hppt, hsel]⟩
  · exact ⟨inp.pos_count, inp.neg_count, by simp [processBaseEpic, hppt, hsel]⟩

/-- Closed instance of C5: only Monthly and Annual checked. -/
theorem c5_payment_frequency_fixed_order_witness :
    (∃ p n, dictGet (processBaseEpic .uniform 5 5 "PaymentFrequency" c1RiderInput
        emptyCanvas).epic_counts "PaymentFrequency" =
      some (.dict [("positive", .int p), ("negative", .int n),
        ("payment_frequency_options", .list (mappedFrequencies
          c1RiderInput.freq_cb))])) ∧
    List.Chain' (· < ·) (mappedFrequencies c1RiderInput.freq_cb) ∧
    (∀ c : Nat, c ∈ mappedFrequencies c1RiderInput.freq_cb ↔
      ∃ f, f ∈ frequency_options ∧ c1RiderInput.freq_cb f = true ∧
        frequency_map f = c) ∧
    mappedFrequencies (fun f => f == "Monthly" || f == "Annual") = [1, 4] :=
  c5_payment_frequency_fixed_order .uniform 5 5 c1RiderInput emptyCanvas rfl

/-! ## Claim C3: a raising entry point never disturbs stored results -/

/-- When the button actually starts a run, the stored result was necessarily
empty: the configuration canvas (and with it a nonempty epic selection) is
only rendered while `generated_df is None`. -/
theorem clickGenerate_processing_sound (s : SessionState) (mode : CountMode)
    (sb : SidebarInput) (bIn rIn : String → EpicInput)
    (loaded : Option LogicModule) (h0 : s.processing = false)
    (h1 : (clickGenerate s (renderCanvas s mode sb bIn rIn loaded)).processing
      = true) :
    s.generated_df = none ∧
    clickGenerate s (renderCanvas s mode sb bIn rIn loaded) =
      { s with
        processing := true
        epic_counts_to_generate :=
          (renderCanvas s mode sb bIn rIn loaded).epic_counts
        epic_counts_to_generate_rider :=
          (renderCanvas s mode sb bIn rIn loaded).epic_counts_rider } := by
  by_cases hmod : s.selected_module_name_py.isNone = true
  · exfalso
    rw [clickGenerate] at h1
    simp [h0, hmod] at h1
  · by_cases hemp :
      ((renderCanvas s mode sb bIn rIn loaded).selected_epics.isEmpty &&
        (renderCanvas s mode sb bIn rIn loaded).selected_epics_rider.isEmpty)
        = true
    · exfalso
      rw [clickGenerate] at h1
      simp [h0, hmod, hemp] at h1
    · have hdf : s.generated_df = none := by
        by_contra hdf
        have hnone : s.generated_df.isNone = false := by
          cases hcase : s.generated_df
          · exact absurd hcase hdf
          · rfl
        unfold renderCanvas at hemp
        simp [hnone, emptyCanvas] at hemp
      refine ⟨hdf, ?_⟩
      rw [clickGenerate]
      simp [h0, hmod, hemp]
  
/-- C3: for every session and configuration in which pressing "Generate" does
start a run, if the module's generation entry point raises then the run is
classified as a generation failure, the stored `generated_df` afterwards
equals the one stored before the click, and the processing flag is false. -/
theorem c3_generation_failure_keeps_results (s : SessionState) (mode : CountMode)
    (sb : SidebarInput) (bIn rIn : String → EpicInput)
    (loaded : Option LogicModule) (m : LogicModule)
    (h0 : s.processing = false)
    (hg : m.has_generate = true) (hr : m.gen = .raises)
    (h1 : (clickGenerate s (renderCanvas s mode sb bIn rIn loaded)).processing
      = true) :
    (runProcessing (clickGenerate s (renderCanvas s mode sb bIn rIn loaded))
        (some m)).2 = .generationFailure ∧
    (runProcessing (clickGenerate s (renderCanvas s mode sb bIn rIn loaded))
        (some m)).1.generated_df = s.generated_df ∧
    (runProcessing (clickGenerate s (renderCanvas s mode sb bIn rIn loaded))
        (some m)).1.processing = false := by
  obtain ⟨hdf, hstep⟩ :=
    clickGenerate_processing_sound s mode sb bIn rIn loaded h0 h1
  have hsome : s.selected_module_name_py.isSome = true := by
    by_contra hno
    have : s.selected_module_name_py = none := by
      cases hcase : s.selected_module_name_py
      · rfl
      · exact absurd (by simp [hcase]) hno
    rw [clickGenerate] at h1
    simp [h0, this] at h1
  rw [hstep, runProcessing]
  simp [hsome, hg, hr, hdf]

/-- Closed instance of C3: fresh session, one generic base epic selected, the
module raises; the run fails, the stored result is still `none`, the flag is
down. -/
theorem c3_generation_failure_keeps_results_witness :
    (runProcessing (clickGenerate w3State (renderCanvas w3State .uniform ⟨5, 5⟩
        (fun _ => plainInput) (fun _ => plainInput) (some w3Module)))
        (some w3Module)).2 = .generationFailure ∧
    (runProcessing (clickGenerate w3State (renderCanvas w3State .uniform ⟨5, 5⟩
        (fun _ => plainInput) (fun _ => plainInput) (some w3Module)))
        (some w3Module)).1.generated_df = w3State.generated_df ∧
    (runProcessing (clickGenerate w3State (renderCanvas w3State .uniform ⟨5, 5⟩
        (fun _ => plainInput) (fun _ => plainInput) (some w3Module)))
        (some w3Module)).1.processing = false :=
  c3_generation_failure_keeps_results w3State .uniform ⟨5, 5⟩
    (fun _ => plainInput) (fun _ => plainInput) (some w3Module) w3Module
    rfl rfl rfl (by rfl)

/-! ## Claim C4: a PPT epic with no enabled variant is dropped -/

/-- Over any variant list, the PER_EPIC PPT loop keeps every value of the
enabled dict false when every processed variant is disabled and the
accumulator was all-false. -/
theorem pptPerEpic_enabled_all_false (inp : EpicInput) :
    ∀ (names : List String) (acc : PptDicts),
      (∀ p ∈ names, (inp.ppt p).enabled = false) →
      (∀ kv ∈ acc.ppt_enabled, kv.2 = false) →
      ∀ kv ∈ (names.foldl (pptStepPerEpic inp) acc).ppt_enabled, kv.2 = false := by
  intro names
  induction names with
  | nil =>
    intro acc _ hacc
    simpa using hacc
  | cons p rest ih =>
    intro acc hnames hacc
    rw [List.foldl_cons]
    apply ih
    · intro q hq
      exact hnames q (List.mem_cons_of_mem _ hq)
    · have hp : (inp.ppt p).enabled = false := hnames p (List.mem_cons_self _ _)
      intro kv hkv
      simp only [pptStepPerEpic, hp, Bool.false_eq_true, if_false] at hkv
      rcases mem_dictSet_elim hkv with hin | heq
      · exact hacc kv hin
      · rw [heq]

/-- Same statement for the UNIFORM PPT loop. -/
theorem pptUniform_enabled_all_false (inp : EpicInput) :
    ∀ (names : List String) (acc : PptDictsU),
      (∀ p ∈ names, (inp.ppt p).enabled = false) →
      (∀ kv ∈ acc.ppt_enabled, kv.2 = false) →
      ∀ kv ∈ (names.foldl (pptStepUniform inp) acc).ppt_enabled, kv.2 = false := by
  intro names
  induction names with
  | nil =>
    intro acc _ hacc
    simpa using hacc
  | cons p rest ih =>
    intro acc hnames hacc
    rw [List.foldl_cons]
    apply ih
    · intro q hq
      exact hnames q (List.mem_cons_of_mem _ hq)
    · have hp : (inp.ppt p).enabled = false := hnames p (List.mem_cons_self _ _)
      intro kv hkv
      simp only [pptStepUniform, hp, Bool.false_eq_true, if_false] at hkv
      rcases mem_dictSet_elim hkv with hin | heq
      · exact hacc kv hin
      · rw [heq]

/-- An all-false flag dict answers `any` with false. -/
theorem anyEnabled_eq_false {e : List (String × Bool)}
    (h : ∀ kv ∈ e, kv.2 = false) : anyEnabled e = false := by
  cases hany : anyEnabled e
  · rfl
  · exfalso
    obtain ⟨kv, hmem, hkv⟩ := List.any_eq_true.1 hany
    have hf := h kv hmem
    rw [hkv] at hf
    exact Bool.noConfusion hf

/-- With every variant disabled, the PER_EPIC guard `any(ppt_enabled.values())`
is false. -/
theorem anyEnabled_buildPptPerEpic_false (inp : EpicInput)
    (h : ∀ p ∈ ppt_names, (inp.ppt p).enabled = false) :
    anyEnabled (buildPptPerEpic inp).ppt_enabled = false :=
  anyEnabled_eq_false
    (pptPerEpic_enabled_all_false inp ppt_names ⟨[], [], [], []⟩ h (by simp))

/-- With every variant disabled, the UNIFORM guard is false. -/
theorem anyEnabled_buildPptUniform_false (inp : EpicInput)
    (h : ∀ p ∈ ppt_names, (inp.ppt p).enabled = false) :
    anyEnabled (buildPptUniform inp).ppt_enabled = false :=
  anyEnabled_eq_false
    (pptUniform_enabled_all_false inp ppt_names ⟨[], []⟩ h (by simp))

/-- The sum-assured updates only touch the epic's own key. -/
theorem dictGet_sumAssuredCounts_ne (gpos gneg : Nat) {key k : String}
    (inp : EpicInput) (d : Dict) (h : key ≠ k) :
    dictGet (sumAssuredCounts gpos gneg key inp d) k = dictGet d k := by
  unfold sumAssuredCounts setTier
  split_ifs <;> simp [dictGet_dictSet_ne _ _ h]

/-- Appending a different key to the base containers leaves `k` untouched. -/
theorem untouched_addBase {k j : String} {st : CanvasState} (h : k ≠ j)
    (hu : Untouched k st) (v : PyVal) :
    Untouched k { st with
      selected_epics := st.selected_epics ++ [j],
      epic_counts := dictSet st.epic_counts j v } := by
  obtain ⟨h1, h2, h3, h4⟩ := hu
  refine ⟨?_, ?_, h3, h4⟩
  · simp [List.mem_append, h1, h]
  · rw [dictGet_dictSet_ne _ _ (Ne.symm h)]
    exact h2

/-- Appending a different key to the rider containers leaves `k` untouched. -/
theorem untouched_addRider {k j : String} {st : CanvasState} (h : k ≠ j)
    (hu : Untouched k st) (v : PyVal) :
    Untouched k { st with
      selected_epics_rider := st.selected_epics_rider ++ [j],
      epic_counts_rider := dictSet st.epic_counts_rider j v } := by
  obtain ⟨h1, h2, h3, h4⟩ := hu
  refine ⟨h1, h2, ?_, ?_⟩
  · simp [List.mem_append, h3, h]
  · rw [dictGet_dictSet_ne _ _ (Ne.symm h)]
    exact h4

/-- The sum-assured branch leaves a different key untouched. -/
theorem untouched_addBaseSA {k j : String} {st : CanvasState} (h : k ≠ j)
    (hu : Untouched k st) (gpos gneg : Nat) (inp : EpicInput) :
    Untouched k { st with
      selected_epics := st.selected_epics ++ [j],
      epic_counts := sumAssuredCounts gpos gneg j inp st.epic_counts } := by
  obtain ⟨h1, h2, h3, h4⟩ := hu
  refine ⟨?_, ?_, h3, h4⟩
  · simp [List.mem_append, h1, h]
  · rw [dictGet_sumAssuredCounts_ne _ _ _ _ (Ne.symm h)]
    exact h2

/-- One base-loop iteration at a different key leaves `k` untouched. -/
theorem base_step_untouched (mode : CountMode) (gpos gneg : Nat) (j : String)
    (inp : EpicInput) {k : String} {st : CanvasState} (h : k ≠ j)
    (hu : Untouched k st) :
    Untouched k (processBaseEpic mode gpos gneg j inp st) := by
  cases mode <;>
    · rw [processBaseEpic]
      split_ifs <;>
        first
          | exact hu
          | exact untouched_addBase h hu _
          | exact untouched_addBaseSA h hu gpos gneg inp

/-- One rider-loop iteration at a different key leaves `k` untouched — the
leaked PaymentFrequency writes also land on the iteration's own key `j`. -/
theorem rider_step_untouched (mode : CountMode) (gpos gneg : Nat) (j : String)
    (inp : EpicInput) {k : String} {st : CanvasState} (h : k ≠ j)
    (hu : Untouched k st) :
    Untouched k (processRiderEpic mode gpos gneg j inp st) := by
  cases mode <;>
    · rw [processRiderEpic]
      split_ifs <;>
        first
          | exact hu
          | exact untouched_addBase h hu _
          | exact untouched_addRider h hu _

/-- A PPT-ranged epic whose six variants are all disabled leaves the base loop
iteration a no-op, selected or not. -/
theorem base_step_id_ppt (mode : CountMode) (gpos gneg : Nat) (k : String)
    (inp : EpicInput) (st : CanvasState) (hk : isPptEpic k = true)
    (hdis : ∀ p ∈ ppt_names, (inp.ppt p).enabled = false) :
    processBaseEpic mode gpos gneg k inp st = st := by
  cases mode
  · simp [processBaseEpic, hk, anyEnabled_buildPptUniform_false inp hdis]
  · simp [processBaseEpic, hk, anyEnabled_buildPptPerEpic_false inp hdis]

/-- Rider-loop version of `base_step_id_ppt`. -/
theorem rider_step_id_ppt (mode : CountMode) (gpos gneg : Nat) (k : String)
    (inp : EpicInput) (st : CanvasState) (hk : isPptEpic k = true)
    (hdis : ∀ p ∈ ppt_names, (inp.ppt p).enabled = false) :
    processRiderEpic mode gpos gneg k inp st = st := by
  cases mode
  · simp [processRiderEpic, hk, anyEnabled_buildPptUniform_false inp hdis]
  · simp [processRiderEpic, hk, anyEnabled_buildPptPerEpic_false inp hdis]

/-- The base loop never touches a PPT-ranged key whose variants are all
disabled. -/
theorem processBaseEpics_untouched (mode : CountMode) (gpos gneg : Nat)
    (bIn : String → EpicInput) {k : String} (hk : isPptEpic k = true)
    (hdis : ∀ p ∈ ppt_names, ((bIn k).ppt p).enabled = false) :
    ∀ (em : List (String × String)) (st : CanvasState), Untouched k st →
      Untouched k (processBaseEpics mode gpos gneg bIn em st) := by
  intro em
  induction em with
  | nil =>
    intro st hu
    exact hu
  | cons kv rest ih =>
    intro st hu
    have hstep : Untouched k (processBaseEpic mode gpos gneg kv.1 (bIn kv.1) st) := by
      by_cases hkj : k = kv.1
      · rw [← hkj]
        rw [base_step_id_ppt mode gpos gneg k (bIn k) st hk hdis]
        exact hu
      · exact base_step_untouched mode gpos gneg kv.1 (bIn kv.1) hkj hu
    exact ih (processBaseEpic mode gpos gneg kv.1 (bIn kv.1) st) hstep

/-- The rider loop never touches a PPT-ranged key whose variants are all
disabled. -/
theorem processRiderEpics_untouched (mode : CountMode) (gpos gneg : Nat)
    (rIn : String → EpicInput) {k : String} (hk : isPptEpic k = true)
    (hdis : ∀ p ∈ ppt_names, ((rIn k).ppt p).enabled = false) :
    ∀ (emr : List (String × String)) (st : CanvasState), Untouched k st →
      Untouched k (processRiderEpics mode gpos gneg rIn emr st) := by
  intro emr
  induction emr with
  | nil =>
    intro st hu
    exact hu
  | cons kv rest ih =>
    intro st hu
    have hstep : Untouched k (processRiderEpic mode gpos gneg kv.1 (rIn kv.1) st) := by
      by_cases hkj : k = kv.1
      · rw [← hkj]
        rw [rider_step_id_ppt mode gpos gneg k (rIn k) st hk hdis]
        exact hu
      · exact rider_step_untouched mode gpos gneg kv.1 (rIn kv.1) hkj hu
    exact ih (processRiderEpic mode gpos gneg kv.1 (rIn kv.1) st) hstep

/-- C4: for each PPT-ranged epic key, in either count mode and in either
family, top-level-selecting the epic while disabling all six PPT variants
leaves the key absent from the resulting GenerationSpec and from the
selected-epic key list — in both families at once, whatever else the two maps
contain. -/
theorem c4_ppt_epic_no_variant_dropped (mode : CountMode) (gpos gneg : Nat)
    (em emr : List (String × String)) (bIn rIn : String → EpicInput)
    (k : String) (hk : isPptEpic k = true)
    (_hbsel : (bIn k).is_selected = true) (_hrsel : (rIn k).is_selected = true)
    (hbdis : ∀ p ∈ ppt_names, ((bIn k).ppt p).enabled = false)
    (hrdis : ∀ p ∈ ppt_names, ((rIn k).ppt p).enabled = false) :
    k ∉ (processCanvas mode gpos gneg em emr bIn rIn).selected_epics ∧
    dictGet (processCanvas mode gpos gneg em emr bIn rIn).epic_counts k = none ∧
    k ∉ (processCanvas mode gpos gneg em emr bIn rIn).selected_epics_rider ∧
    dictGet (processCanvas mode gpos gneg em emr bIn rIn).epic_counts_rider k
      = none := by
  have h0 : Untouched k emptyCanvas := by
    refine ⟨?_, rfl, ?_, rfl⟩ <;> simp [emptyCanvas]
  exact processRiderEpics_untouched mode gpos gneg rIn hk hrdis emr _
    (processBaseEpics_untouched mode gpos gneg bIn hk hbdis em emptyCanvas h0)

/-- Closed instance of C4: EntryAge selected in both maps with all variants
disabled is absent from all four containers. -/
theorem c4_ppt_epic_no_variant_dropped_witness :
    "EntryAge" ∉ (processCanvas .perEpic 5 5
      [("EntryAge", "Entry Age"), ("DeathBenefit", "Death Benefit")]
      [("EntryAge", "Entry Age")]
      (fun _ => plainInput) (fun _ => plainInput)).selected_epics ∧
    dictGet (processCanvas .perEpic 5 5
      [("EntryAge", "Entry Age"), ("DeathBenefit", "Death Benefit")]
      [("EntryAge", "Entry Age")]
      (fun _ => plainInput) (fun _ => plainInput)).epic_counts "EntryAge" = none ∧
    "EntryAge" ∉ (processCanvas .perEpic 5 5
      [("EntryAge", "Entry Age"), ("DeathBenefit", "Death Benefit")]
      [("EntryAge", "Entry Age")]
      (fun _ => plainInput) (fun _ => plainInput)).selected_epics_rider ∧
    dictGet (processCanvas .perEpic 5 5
      [("EntryAge", "Entry Age"), ("DeathBenefit", "Death Benefit")]
      [("EntryAge", "Entry Age")]
      (fun _ => plainInput) (fun _ => plainInput)).epic_counts_rider "EntryAge"
      = none :=
  c4_ppt_epic_no_variant_dropped .perEpic 5 5
    [("EntryAge", "Entry Age"), ("DeathBenefit", "Death Benefit")]
    [("EntryAge", "Entry Age")] (fun _ => plainInput) (fun _ => plainInput)
    "EntryAge" rfl rfl rfl (fun _ _ => rfl) (fun _ _ => rfl)

/-! ## Claim C9: best-effort module listing -/

/-- C9 counterexample: the listing is a dict keyed by display name, so a later
module whose `MODULE_NAME` equals a raising module's derived title overwrites
its entry — `foo_bar.py` raises (derived title "Foo Bar") and `max_shield.py`
declares `MODULE_NAME = "Foo Bar"`, after which `foo_bar` is no longer listed
at all. -/
theorem c9_raising_module_hidden_by_collision :
    get_available_logic_modules c9Files = [("Foo Bar", "max_shield")] ∧
    "foo_bar" ∉ (get_available_logic_modules c9Files).map Prod.snd := by
  constructor
  · rfl
  · intro hmem
    have he : (get_available_logic_modules c9Files).map Prod.snd =
        ["max_shield"] := rfl
    rw [he] at hmem
    exact absurd (List.mem_singleton.1 hmem) (by decide)

/-- An entry whose key differs from whatever this step might insert survives
the step. -/
theorem galStep_keeps {acc : List (String × String)} {k v : String}
    (hmem : (k, v) ∈ acc) (fr : String × IntrospectResult)
    (hne : eligibleModuleFile fr.1 = true → displayKey fr.1 fr.2 ≠ k) :
    (k, v) ∈ galStep acc fr := by
  obtain ⟨fn, res⟩ := fr
  unfold galStep
  dsimp only
  by_cases helig : eligibleModuleFile fn = true
  · rw [if_pos helig]
    cases res
    · exact mem_dictSet_of_ne hmem _ (Ne.symm (hne helig))
    · exact mem_dictSet_of_ne hmem _ (Ne.symm (hne helig))
  · rw [if_neg helig]
    exact hmem

/-- Processing an eligible file records it under its display key, with the
file stem as module id. -/
theorem galStep_puts (acc : List (String × String))
    (fr : String × IntrospectResult) (helig : eligibleModuleFile fr.1 = true) :
    (displayKey fr.1 fr.2, strDropRight fr.1 3) ∈ galStep acc fr := by
  obtain ⟨fn, res⟩ := fr
  unfold galStep
  dsimp only
  rw [if_pos helig]
  cases res
  · exact mem_dictSet_self _ _ _
  · exact mem_dictSet_self _ _ _

/-- An entry survives the rest of the registry fold as long as no later
eligible file carries the same display key. -/
theorem gal_fold_keeps :
    ∀ (files : List (String × IntrospectResult)) (acc : List (String × String))
      (k v : String), (k, v) ∈ acc →
      (∀ fr ∈ files, eligibleModuleFile fr.1 = true → displayKey fr.1 fr.2 ≠ k) →
      (k, v) ∈ files.foldl galStep acc := by
  intro files
  induction files with
  | nil =>
    intro acc k v hmem _
    simpa using hmem
  | cons g rest ih =>
    intro acc k v hmem hne
    rw [List.foldl_cons]
    apply ih
    · exact galStep_keeps hmem g (hne g (List.mem_cons_self _ _))
    · intro fr hfr helig
      exact hne fr (List.mem_cons_of_mem _ hfr) helig

/-- Every eligible file of a listing whose eligible files have pairwise
distinct display keys ends up in the fold's result under its display key. -/
theorem gal_fold_mem :
    ∀ (files : List (String × IntrospectResult)) (acc : List (String × String)),
      List.Pairwise (fun a b => eligibleModuleFile a.1 = true →
        eligibleModuleFile b.1 = true →
        displayKey a.1 a.2 ≠ displayKey b.1 b.2) files →
      ∀ fr ∈ files, eligibleModuleFile fr.1 = true →
        (displayKey fr.1 fr.2, strDropRight fr.1 3) ∈ files.foldl galStep acc := by
  intro files
  induction files with
  | nil =>
    intro acc _ fr hfr
    simp at hfr
  | cons g rest ih =>
    intro acc hpair fr hfr helig
    rw [List.foldl_cons]
    obtain ⟨hhead, htail⟩ := List.pairwise_cons.1 hpair
    rcases List.mem_cons.1 hfr with hfg | hfr2
    · subst hfg
      apply gal_fold_keeps
      · exact galStep_puts acc fr helig
      · intro fr2 hfr2 helig2
        exact Ne.symm (hhead fr2 hfr2 helig helig2)
    · exact ih (galStep acc g) htail fr hfr2 helig

/-- C9 (amended): provided the display names of the eligible files are
pairwise distinct, every `*.py` file not starting with `__` appears in the
listing: a file that raises during introspection under its filename-derived
title, a file lacking `MODULE_NAME` under the same derived name, and a broken
file never disturbs the others' entries. -/
theorem c9_best_effort_listing (files : List (String × IntrospectResult))
    (hdist : List.Pairwise (fun a b => eligibleModuleFile a.1 = true →
      eligibleModuleFile b.1 = true →
      displayKey a.1 a.2 ≠ displayKey b.1 b.2) files)
    (fr : String × IntrospectResult) (hmem : fr ∈ files)
    (helig : eligibleModuleFile fr.1 = true) :
    (displayKey fr.1 fr.2, strDropRight fr.1 3) ∈
      get_available_logic_modules files :=
  gal_fold_mem files [] hdist fr hmem helig

/-- Closed instance of the amended C9: in a collision-free directory the
raising `foo_bar.py` is listed under its derived title "Foo Bar". -/
theorem c9_best_effort_listing_witness :
    ("Foo Bar", "foo_bar") ∈ get_available_logic_modules c9OkFiles :=
  c9_best_effort_listing c9OkFiles
    (by
      unfold c9OkFiles
      simp only [List.pairwise_cons, List.mem_cons]
      refine ⟨?_, ?_, ?_, ?_, fun a h => absurd h (by simp), List.Pairwise.nil⟩
      all_goals intro a ha
      all_goals rcases ha with rfl | rfl | rfl | rfl | h
      all_goals first
        | (intro h1 h2; decide)
        | (intro h1; exact absurd h1 (by decide)))
    ("foo_bar.py", .raises) (by simp [c9OkFiles]) rfl
